import Mathlib

/-!
Shallow embedding of the Room action-dispatch engine of
`src/api/src/core/Room.ts` (bingogg), together with theorems settling the
spec claims about it.

The embedding mirrors the `ws.on('message', ...)` handler: a raw inbound
frame is JSON-decoded into a `RoomAction` (line 72, outside the
`try`), then inside the `try` (lines 73-126) the auth token is resolved,
the action is dispatched by its `action` tag, the board is mutated, and
outbound messages are emitted.  A thrown JS exception inside the `try` is
modelled as `Except.error` of a `RoomError`, which the surrounding
`catch { return; }` converts to a silent drop; a `JSON.parse` failure is
modelled as `Except.error` of `DecodeError` escaping `processMessage`
itself, because line 72 sits outside the `try`.
-/

/-- A cell of the bingo board: a goal string plus the list of colors that
have marked it (`{ goal, colors }` in `ServerMessage.ts`). -/
structure Cell where
  goal : String
  colors : List String
deriving DecidableEq, Repr

/-- The board: `{ board: Cell[][] }` as in `Room.board`. -/
structure Board where
  board : List (List Cell)
deriving DecidableEq, Repr

/-- The identity returned by `verifyRoomToken`: `{ nickname, color }`. -/
structure Identity where
  nickname : String
  color : String
deriving DecidableEq, Repr

/-- The optional fields of a `RoomAction` payload: `row`, `col`,
`message`, each possibly absent (JS `undefined`). -/
structure Payload where
  row : Option Int := none
  col : Option Int := none
  message : Option String := none
deriving DecidableEq, Repr

/-- An inbound action frame: `{ action, authToken, payload? }`.  The
`action` tag is a plain string, matching the TS `switch` on
`action.action` where an unknown tag falls through all cases. -/
structure RoomAction where
  action : String
  authToken : String
  payload : Option Payload := none
deriving DecidableEq, Repr

/-- Outbound `ServerMessage` variants.  The `chat` message carries an
`Option String` because the chat case can forward an absent payload
field (`undefined` in JS) to `sendChat`. -/
inductive ServerMessage where
  | chat (message : Option String)
  | cellUpdate (row col : Int) (cell : Cell)
  | syncBoard (board : Board)
deriving DecidableEq, Repr

/-- One observable output of processing an action: a reply on the
originating channel (`ws.send`), a broadcast to the whole channel set
(`sendServerMessage`), or closing the originating channel (`ws.close`). -/
inductive Out where
  | reply (msg : ServerMessage)
  | broadcast (msg : ServerMessage)
  | closeChannel
deriving DecidableEq, Repr

/-- JS exceptions that can be thrown inside the `try` block of the
message handler: `verifyRoomToken` rejecting the token, or a `TypeError`
from reading a property of `undefined` (absent payload object, or an
out-of-range array index). -/
inductive RoomError where
  | invalidToken
  | typeError
deriving DecidableEq, Repr

/-- The error of `JSON.parse` on line 72, raised BEFORE the `try` block
and hence not caught by the handler. -/
inductive DecodeError where
  | decodeError
deriving DecidableEq, Repr

/-- A raw inbound ws frame.  `decoded` is the result of
`JSON.parse(message.toString())`: `none` when the text is not valid
JSON (in which case `JSON.parse` throws). -/
structure RawMessage where
  decoded : Option RoomAction
deriving DecidableEq, Repr

/-- JS truthiness of the raw frame variable `message` in the handler.
The frame is a Buffer, i.e. an object, and every JS object is truthy,
so this is constantly `true`.  (Line 121 tests `!message` against this
raw frame variable, not against the decoded chat text.) -/
def RawMessage.truthy (_ : RawMessage) : Bool := true

/-- JS array read `l[i]` for an integer index: `undefined` (`none`) when
`i` is negative or past the end. -/
def listIdx? {α : Type} (l : List α) (i : Int) : Option α :=
  if i < 0 then none else l.get? i.toNat

/-- Functional rendering of the in-place JS update `l[i] = a` (only ever
reached with `i` in range). -/
def listSet {α : Type} (l : List α) (i : Int) (a : α) : List α :=
  if i < 0 then l else l.set i.toNat a

/-- `this.board.board[row][col]`: `none` exactly when the access chain
hits `undefined` (out-of-range row or column), in which case the
subsequent property access throws a `TypeError` in JS. -/
def getCell? (b : Board) (row col : Int) : Option Cell :=
  (listIdx? b.board row).bind fun r => listIdx? r col

/-- Functional rendering of the in-place mutation of the cell at
`(row, col)` (push onto `colors`, or assignment of the filtered list). -/
def setCell (b : Board) (row col : Int) (cell : Cell) : Board :=
  match listIdx? b.board row with
  | none => b
  | some r => ⟨listSet b.board row (listSet r col cell)⟩

/-- The body of the `try` block (Room.ts lines 74-123): resolve the
token, then dispatch on the action tag.  `Except.error` models a thrown
JS exception; `rawTruthy` is the truthiness of the raw frame variable
tested by the chat case's guard. -/
def dispatch (resolve : String → Option Identity) (rawTruthy : Bool)
    (board : Board) (a : RoomAction) : Except RoomError (List Out × Board) :=
  match resolve a.authToken with
  | none => .error .invalidToken
  | some identity =>
    if a.action = "join" then
      .ok ([.reply (.syncBoard board),
            .broadcast (.chat (some (identity.nickname ++ " has joined.")))],
           board)
    else if a.action = "leave" then
      .ok ([.broadcast (.chat (some (identity.nickname ++ " has left."))),
            .closeChannel],
           board)
    else if a.action = "mark" then
      match a.payload with
      | none => .error .typeError
      | some p =>
        match p.row, p.col with
        | some row, some col =>
          match getCell? board row col with
          | none => .error .typeError
          | some cell =>
            if identity.color ∈ cell.colors then .ok ([], board)
            else
              let newCell : Cell :=
                { cell with colors := cell.colors ++ [identity.color] }
              .ok ([.broadcast (.cellUpdate row col newCell),
                    .broadcast (.chat (some (identity.nickname ++
                      " is marking (" ++ toString row ++ "," ++
                      toString col ++ ")")))],
                   setCell board row col newCell)
        | _, _ => .ok ([], board)
    else if a.action = "unmark" then
      match a.payload with
      | none => .error .typeError
      | some p =>
        match p.row, p.col with
        | some row, some col =>
          match getCell? board row col with
          | none => .error .typeError
          | some cell =>
            let newCell : Cell :=
              { cell with
                colors := cell.colors.filter
                  (fun color => color != identity.color) }
            .ok ([.broadcast (.cellUpdate row col newCell),
                  .broadcast (.chat (some (identity.nickname ++
                    " is unmarking (" ++ toString row ++ "," ++
                    toString col ++ ")")))],
                 setCell board row col newCell)
        | _, _ => .ok ([], board)
    else if a.action = "chat" then
      match a.payload with
      | none => .error .typeError
      | some p =>
        if !rawTruthy then .ok ([], board)
        else .ok ([.broadcast (.chat p.message)], board)
    else .ok ([], board)

/-- The whole message handler (Room.ts lines 71-127).  `JSON.parse`
failure (`decoded = none`) yields `Except.error`: that exception is
raised on line 72, BEFORE the `try` of line 73, so it escapes the
handler.  Every exception inside `dispatch` is caught by the
`catch { return; }` of lines 124-126 and becomes a silent drop. -/
def processMessage (resolve : String → Option Identity) (board : Board)
    (raw : RawMessage) : Except DecodeError (List Out × Board) :=
  match raw.decoded with
  | none => .error .decodeError
  | some a =>
    match dispatch resolve raw.truthy board a with
    | .error _ => .ok ([], board)
    | .ok r => .ok r

/-- The board after processing one message (a decode crash leaves the
board as it was). -/
def runMessage (resolve : String → Option Identity) (board : Board)
    (raw : RawMessage) : Board :=
  match processMessage resolve board raw with
  | .ok (_, b) => b
  | .error _ => board

/-- A well-formed mark frame for token `t` at `(r, c)`. -/
def markRaw (t : String) (r c : Int) : RawMessage :=
  ⟨some { action := "mark", authToken := t,
          payload := some { row := some r, col := some c } }⟩

/-- The spec invariant: a given color appears at most once per cell. -/
def boardNodup (b : Board) : Prop :=
  ∀ row ∈ b.board, ∀ cell ∈ row, cell.colors.Nodup

/-- The hard-coded default board built at Room construction
(Room.ts lines 17-59). -/
def initialBoard : Board :=
  { board :=
    [ [ { goal := "Collect 5 things", colors := [] },
        { goal := "Talk to 10 people", colors := [] },
        { goal := "A pointy device", colors := [] },
        { goal := "Obtain a hammer", colors := [] },
        { goal := "YELL", colors := [] } ],
      [ { goal := "10 Wells", colors := [] },
        { goal := "15 flames", colors := [] },
        { goal := "Beat the game", colors := [] },
        { goal := "Die 10 times", colors := [] },
        { goal := "Beat 5-2", colors := [] } ],
      [ { goal := "Beat 3-5", colors := [] },
        { goal := "Discover Persia", colors := [] },
        { goal := "Invent Religion", colors := [] },
        { goal := "C O N Q U E S T", colors := [] },
        { goal := "this is a really long goal name because sometimes these will exist and it needs to be tested against",
          colors := [] } ],
      [ { goal := "Return to Madagascar", colors := [] },
        { goal := "Morph Ball", colors := [] },
        { goal := "500 HP", colors := [] },
        { goal := "50 coins", colors := [] },
        { goal := "Have a civil war", colors := [] } ],
      [ { goal := "Game over", colors := [] },
        { goal := "Kill 300 enemies", colors := [] },
        { goal := "Explosives", colors := [] },
        { goal := "Compass", colors := [] },
        { goal := "Roads", colors := [] } ] ] }

/-- A concrete resolver used for witnesses and counterexamples. -/
def demoResolve : String → Option Identity := fun t =>
  if t = "tokRed" then some { nickname := "A", color := "red" }
  else if t = "tokBlue" then some { nickname := "B", color := "blue" }
  else none

/-- The outputs produced by processing one message (a decode crash
produces none before escaping). -/
def outsMessage (resolve : String → Option Identity) (board : Board)
    (raw : RawMessage) : List Out :=
  match processMessage resolve board raw with
  | .ok (outs, _) => outs
  | .error _ => []

/-- The initial board with cell (0,0) already marked red: the state after
`demoResolve`-identity A has marked that cell once. -/
def redBoard : Board :=
  setCell initialBoard 0 0 { goal := "Collect 5 things", colors := ["red"] }

theorem listIdx?_mem {α : Type} {l : List α} {i : Int} {x : α}
    (h : listIdx? l i = some x) : x ∈ l := by
  unfold listIdx? at h
  by_cases hi : i < 0
  · simp [hi] at h
  · simp [hi] at h
    exact List.getElem?_mem h

theorem listIdx?_listSet_self {α : Type} {l : List α} {i : Int} {x : α} (a : α)
    (h : listIdx? l i = some x) : listIdx? (listSet l i a) i = some a := by
  unfold listIdx? at h
  by_cases hi : i < 0
  · simp [hi] at h
  · simp [hi] at h
    have hlen : i.toNat < l.length := (List.getElem?_eq_some.mp h).fst
    simp [listSet, listIdx?, hi, List.getElem?_set_eq_of_lt, hlen]

theorem mem_of_mem_listSet {α : Type} {l : List α} {i : Int} {a x : α}
    (h : x ∈ listSet l i a) : x ∈ l ∨ x = a := by
  unfold listSet at h
  split at h
  · exact Or.inl h
  · exact List.mem_or_eq_of_mem_set h

theorem getCell?_setCell_self {b : Board} {r c : Int} {cell : Cell} (x : Cell)
    (h : getCell? b r c = some cell) :
    getCell? (setCell b r c x) r c = some x := by
  unfold getCell? at h
  cases hr : listIdx? b.board r with
  | none => rw [hr] at h; simp at h
  | some rowL =>
    rw [hr] at h
    simp only [Option.some_bind] at h
    unfold setCell
    rw [hr]
    unfold getCell?
    simp only
    rw [listIdx?_listSet_self (listSet rowL c x) hr]
    simp only [Option.some_bind]
    exact listIdx?_listSet_self x h

theorem getCell?_nodup {b : Board} {r c : Int} {cell : Cell}
    (hb : boardNodup b) (h : getCell? b r c = some cell) :
    cell.colors.Nodup := by
  unfold getCell? at h
  cases hr : listIdx? b.board r with
  | none => rw [hr] at h; simp at h
  | some rowL =>
    rw [hr] at h
    simp only [Option.some_bind] at h
    exact hb rowL (listIdx?_mem hr) cell (listIdx?_mem h)

theorem boardNodup_setCell {b : Board} {r c : Int} {x : Cell}
    (hb : boardNodup b) (hx : x.colors.Nodup) : boardNodup (setCell b r c x) := by
  intro row hrow cell hcell
  unfold setCell at hrow
  cases hr : listIdx? b.board r with
  | none => rw [hr] at hrow; exact hb row hrow cell hcell
  | some rowL =>
    rw [hr] at hrow
    simp only at hrow
    rcases mem_of_mem_listSet hrow with h | h
    · exact hb row h cell hcell
    · subst h
      rcases mem_of_mem_listSet hcell with h2 | h2
      · exact hb rowL (listIdx?_mem hr) cell h2
      · subst h2; exact hx

/-- A mark whose color is already on the cell leaves the board as it
was (the early `return` on Room.ts lines 92-97). -/
theorem runMessage_mark_mem (resolve : String → Option Identity) (board : Board)
    (t : String) (r c : Int) (n C : String) (cell : Cell)
    (hres : resolve t = some ⟨n, C⟩) (hcell : getCell? board r c = some cell)
    (hmem : C ∈ cell.colors) :
    runMessage resolve board (markRaw t r c) = board := by
  simp [runMessage, processMessage, markRaw, dispatch, hres, hcell, hmem]

/-- A mark whose color is not yet on the cell appends it (the `push` on
Room.ts lines 98-100). -/
theorem runMessage_mark_not_mem (resolve : String → Option Identity) (board : Board)
    (t : String) (r c : Int) (n C : String) (cell : Cell)
    (hres : resolve t = some ⟨n, C⟩) (hcell : getCell? board r c = some cell)
    (hmem : C ∉ cell.colors) :
    runMessage resolve board (markRaw t r c) =
      setCell board r c { cell with colors := cell.colors ++ [C] } := by
  simp [runMessage, processMessage, markRaw, dispatch, hres, hcell, hmem]

/-- Combined specification of one processed mark: the target cell ends
up containing the marking color, keeps everything it had, and the
no-duplicate-color invariant is preserved. -/
theorem runMessage_mark_spec (resolve : String → Option Identity) (board : Board)
    (t : String) (r c : Int) (n C : String) (cell : Cell)
    (hres : resolve t = some ⟨n, C⟩) (hcell : getCell? board r c = some cell) :
    ∃ cell2, getCell? (runMessage resolve board (markRaw t r c)) r c = some cell2 ∧
      C ∈ cell2.colors ∧
      (∀ x ∈ cell.colors, x ∈ cell2.colors) ∧
      (boardNodup board → boardNodup (runMessage resolve board (markRaw t r c))) := by
  by_cases hmem : C ∈ cell.colors
  · rw [runMessage_mark_mem resolve board t r c n C cell hres hcell hmem]
    exact ⟨cell, hcell, hmem, fun x hx => hx, fun hb => hb⟩
  · rw [runMessage_mark_not_mem resolve board t r c n C cell hres hcell hmem]
    refine ⟨_, getCell?_setCell_self _ hcell, ?_, ?_, ?_⟩
    · simp
    · intro x hx; simp [hx]
    · intro hb
      apply boardNodup_setCell hb
      simp [List.nodup_append, getCell?_nodup hb hcell, hmem]

/-- Claim C1 (code_bug evidence): a raw frame whose text fails JSON
decoding makes `processMessage` return `Except.error`, i.e. the
`JSON.parse` exception of Room.ts line 72 is raised before the `try` of
line 73 and escapes the message handler uncaught, contradicting the
spec's statement that decode errors are caught at the outermost dispatch
boundary and the room never crashes.  (No broadcast and no reply are
produced, but the no-crash half of the claim fails.) -/
theorem decode_error_escapes_handler (resolve : String → Option Identity)
    (board : Board) :
    processMessage resolve board ⟨none⟩ = .error .decodeError := rfl

/-- Claim C2: any decoded action whose auth token the resolver rejects
is dropped silently — `verifyRoomToken` throws, the `catch` of Room.ts
lines 124-126 swallows it, and processing yields no outputs and an
unchanged board. -/
theorem unresolvable_token_silent_drop (resolve : String → Option Identity)
    (board : Board) (raw : RawMessage) (a : RoomAction)
    (hdec : raw.decoded = some a) (hres : resolve a.authToken = none) :
    processMessage resolve board raw = .ok ([], board) := by
  simp [processMessage, hdec, dispatch, hres]

/-- Witness for C2: a mark with an unknown token on the initial board
produces no outputs and leaves the board unchanged. -/
theorem unresolvable_token_silent_drop_witness :
    processMessage demoResolve initialBoard
      ⟨some { action := "mark", authToken := "bad",
              payload := some { row := some 0, col := some 0 } }⟩ =
      .ok ([], initialBoard) :=
  unresolvable_token_silent_drop demoResolve initialBoard _ _ rfl rfl

/-- Claim C3 (counterexample): marking cell (0,0) of `redBoard` — on
which color red is already present — with the red identity emits NO
cellUpdate and NO chat broadcast, refuting the claim that the
implementation still re-sends an update on a no-op mark: the guard at
Room.ts lines 92-97 returns before any send. -/
theorem noop_mark_rebroadcast_cex :
    processMessage demoResolve redBoard (markRaw "tokRed" 0 0) =
      .ok ([], redBoard) ∧
    outsMessage demoResolve redBoard (markRaw "tokRed" 0 0) = [] :=
  ⟨rfl, rfl⟩

/-- Claim C3 (amended): when a mark with a valid token targets an
in-bounds cell on which the resolved identity's color is already
present, the board is unchanged and NOTHING is emitted — no cellUpdate
and no chat broadcast (silent drop). -/
theorem noop_mark_silent_drop (resolve : String → Option Identity)
    (board : Board) (raw : RawMessage) (a : RoomAction) (p : Payload)
    (r c : Int) (cell : Cell) (id : Identity)
    (hdec : raw.decoded = some a) (ha : a.action = "mark")
    (hp : a.payload = some p) (hr : p.row = some r) (hc : p.col = some c)
    (hres : resolve a.authToken = some id)
    (hcell : getCell? board r c = some cell)
    (hmem : id.color ∈ cell.colors) :
    outsMessage resolve board raw = [] ∧
      runMessage resolve board raw = board := by
  constructor <;>
    simp [outsMessage, runMessage, processMessage, hdec, dispatch, hres,
      ha, hp, hr, hc, hcell, hmem]

/-- Witness for the amended C3 at the concrete already-marked cell. -/
theorem noop_mark_silent_drop_witness :
    outsMessage demoResolve redBoard (markRaw "tokRed" 0 0) = [] ∧
      runMessage demoResolve redBoard (markRaw "tokRed" 0 0) = redBoard :=
  noop_mark_silent_drop demoResolve redBoard _ _ _ 0 0 _ ⟨"A", "red"⟩
    rfl rfl rfl rfl rfl rfl rfl (by decide)

/-- Claim C4: a mark with a valid token on an in-bounds cell whose color
set already contains the resolved identity's color is dropped silently:
no cellUpdate, no chat, no board mutation (Room.ts lines 92-97). -/
theorem mark_already_present_drops (resolve : String → Option Identity)
    (board : Board) (raw : RawMessage) (a : RoomAction) (p : Payload)
    (r c : Int) (cell : Cell) (id : Identity)
    (hdec : raw.decoded = some a) (ha : a.action = "mark")
    (hp : a.payload = some p) (hr : p.row = some r) (hc : p.col = some c)
    (hres : resolve a.authToken = some id)
    (hcell : getCell? board r c = some cell)
    (hmem : id.color ∈ cell.colors) :
    processMessage resolve board raw = .ok ([], board) := by
  simp [processMessage, hdec, dispatch, hres, ha, hp, hr, hc, hcell, hmem]

/-- Witness for C4 at the concrete already-marked cell. -/
theorem mark_already_present_drops_witness :
    processMessage demoResolve redBoard (markRaw "tokRed" 0 0) =
      .ok ([], redBoard) :=
  mark_already_present_drops demoResolve redBoard _ _ _ 0 0 _ ⟨"A", "red"⟩
    rfl rfl rfl rfl rfl rfl rfl (by decide)

/-- Claim C5: algebraic properties of marking through the full pipeline.
For an in-bounds cell and two colors, marking with C1 then C2 yields a
cell containing both, in either order; marking with C1 twice yields the
same board as marking once (the second mark is dropped by the
already-present guard); and the at-most-once-per-cell color invariant
is preserved. -/
theorem mark_algebraic_properties (resolve : String → Option Identity)
    (board : Board) (t1 t2 : String) (r c : Int) (n1 n2 C1 C2 : String)
    (cell : Cell)
    (hres1 : resolve t1 = some ⟨n1, C1⟩) (hres2 : resolve t2 = some ⟨n2, C2⟩)
    (hne : C1 ≠ C2) (hcell : getCell? board r c = some cell) :
    (∃ cellB, getCell? (runMessage resolve
        (runMessage resolve board (markRaw t1 r c)) (markRaw t2 r c)) r c =
        some cellB ∧ C1 ∈ cellB.colors ∧ C2 ∈ cellB.colors)
    ∧ (∃ cellB, getCell? (runMessage resolve
        (runMessage resolve board (markRaw t2 r c)) (markRaw t1 r c)) r c =
        some cellB ∧ C1 ∈ cellB.colors ∧ C2 ∈ cellB.colors)
    ∧ runMessage resolve (runMessage resolve board (markRaw t1 r c))
        (markRaw t1 r c) = runMessage resolve board (markRaw t1 r c)
    ∧ (boardNodup board → boardNodup (runMessage resolve
        (runMessage resolve board (markRaw t1 r c)) (markRaw t2 r c))) := by
  obtain ⟨cell1, hc1, hC1mem, hpres1, hnd1⟩ :=
    runMessage_mark_spec resolve board t1 r c n1 C1 cell hres1 hcell
  obtain ⟨cell12, hc12, hC2mem, hpres12, hnd12⟩ :=
    runMessage_mark_spec resolve _ t2 r c n2 C2 cell1 hres2 hc1
  obtain ⟨cell2, hc2, hC2memB, hpres2, hnd2⟩ :=
    runMessage_mark_spec resolve board t2 r c n2 C2 cell hres2 hcell
  obtain ⟨cell21, hc21, hC1memB, hpres21, hnd21⟩ :=
    runMessage_mark_spec resolve _ t1 r c n1 C1 cell2 hres1 hc2
  exact ⟨⟨cell12, hc12, hpres12 C1 hC1mem, hC2mem⟩,
         ⟨cell21, hc21, hC1memB, hpres21 C2 hC2memB⟩,
         runMessage_mark_mem resolve _ t1 r c n1 C1 cell1 hres1 hc1 hC1mem,
         fun hb => hnd12 (hnd1 hb)⟩

/-- Witness for C5 at cell (0,0) of the initial board with colors red
and blue. -/
theorem mark_algebraic_properties_witness :
    (∃ cellB, getCell? (runMessage demoResolve
        (runMessage demoResolve initialBoard (markRaw "tokRed" 0 0))
        (markRaw "tokBlue" 0 0)) 0 0 =
        some cellB ∧ "red" ∈ cellB.colors ∧ "blue" ∈ cellB.colors)
    ∧ (∃ cellB, getCell? (runMessage demoResolve
        (runMessage demoResolve initialBoard (markRaw "tokBlue" 0 0))
        (markRaw "tokRed" 0 0)) 0 0 =
        some cellB ∧ "red" ∈ cellB.colors ∧ "blue" ∈ cellB.colors)
    ∧ runMessage demoResolve
        (runMessage demoResolve initialBoard (markRaw "tokRed" 0 0))
        (markRaw "tokRed" 0 0) =
        runMessage demoResolve initialBoard (markRaw "tokRed" 0 0)
    ∧ (boardNodup initialBoard → boardNodup (runMessage demoResolve
        (runMessage demoResolve initialBoard (markRaw "tokRed" 0 0))
        (markRaw "tokBlue" 0 0))) :=
  mark_algebraic_properties demoResolve initialBoard "tokRed" "tokBlue" 0 0
    "A" "B" "red" "blue" ⟨"Collect 5 things", []⟩ rfl rfl (by decide) rfl

/-- Claim C6: an unmark with a valid token and present in-bounds
coordinates filters the resolved identity's color out of the cell,
leaves every other color untouched, and — also in the no-op case where
the color was absent — broadcasts one cellUpdate for the (possibly
unchanged) cell followed by one chat message (Room.ts lines 106-118). -/
theorem unmark_filters_and_broadcasts (resolve : String → Option Identity)
    (board : Board) (raw : RawMessage) (a : RoomAction) (p : Payload)
    (r c : Int) (cell : Cell) (id : Identity)
    (hdec : raw.decoded = some a) (ha : a.action = "unmark")
    (hp : a.payload = some p) (hr : p.row = some r) (hc : p.col = some c)
    (hres : resolve a.authToken = some id)
    (hcell : getCell? board r c = some cell) :
    (processMessage resolve board raw =
      .ok ([.broadcast (.cellUpdate r c
              { cell with colors :=
                  cell.colors.filter (fun color => color != id.color) }),
            .broadcast (.chat (some (id.nickname ++ " is unmarking (" ++
              toString r ++ "," ++ toString c ++ ")")))],
           setCell board r c
             { cell with colors :=
                 cell.colors.filter (fun color => color != id.color) }))
    ∧ id.color ∉ cell.colors.filter (fun color => color != id.color)
    ∧ (∀ x, x ≠ id.color →
        (x ∈ cell.colors.filter (fun color => color != id.color) ↔
          x ∈ cell.colors)) := by
  refine ⟨?_, ?_, ?_⟩
  · simp [processMessage, hdec, dispatch, hres, ha, hp, hr, hc, hcell]
  · simp [List.mem_filter]
  · intro x hx
    simp [List.mem_filter, hx]

/-- Witness for C6: identity B (blue) unmarks cell (0,0) of `redBoard`,
where blue was never present — the cell keeps red, and the
cellUpdate and chat broadcasts are still emitted. -/
theorem unmark_filters_and_broadcasts_witness :
    (processMessage demoResolve redBoard
      ⟨some { action := "unmark", authToken := "tokBlue",
              payload := some { row := some 0, col := some 0 } }⟩ =
      .ok ([.broadcast (.cellUpdate 0 0
              { goal := "Collect 5 things",
                colors := ["red"].filter (fun color => color != "blue") }),
            .broadcast (.chat (some "B is unmarking (0,0)"))],
           setCell redBoard 0 0
             { goal := "Collect 5 things",
               colors := ["red"].filter (fun color => color != "blue") }))
    ∧ "blue" ∉ ["red"].filter (fun color => color != "blue")
    ∧ (∀ x, x ≠ "blue" →
        (x ∈ ["red"].filter (fun color => color != "blue") ↔
          x ∈ ["red"])) :=
  unmark_filters_and_broadcasts demoResolve redBoard _ _ _ 0 0
    { goal := "Collect 5 things", colors := ["red"] } ⟨"B", "blue"⟩
    rfl rfl rfl rfl rfl rfl rfl

/-- Claim C7: a mark or unmark whose payload is present but omits `row`
or `col` produces zero outputs and zero board mutation, even with a
valid token (the `undefined` guards at Room.ts lines 90-91 and
107-109). -/
theorem missing_coords_silent_drop (resolve : String → Option Identity)
    (board : Board) (raw : RawMessage) (a : RoomAction) (p : Payload)
    (id : Identity)
    (hdec : raw.decoded = some a)
    (ha : a.action = "mark" ∨ a.action = "unmark")
    (hp : a.payload = some p)
    (hmiss : p.row = none ∨ p.col = none)
    (hres : resolve a.authToken = some id) :
    processMessage resolve board raw = .ok ([], board) := by
  rcases ha with ha | ha <;> rcases hmiss with hm | hm <;>
    rcases hrow : p.row with _ | rv <;>
    simp [processMessage, hdec, dispatch, hres, ha, hp, hm, hrow]

/-- Witness for C7: a mark with a valid token and a payload that has
`col` but no `row` is silently dropped. -/
theorem missing_coords_silent_drop_witness :
    processMessage demoResolve initialBoard
      ⟨some { action := "mark", authToken := "tokRed",
              payload := some { col := some 0 } }⟩ =
      .ok ([], initialBoard) :=
  missing_coords_silent_drop demoResolve initialBoard _ _ _ ⟨"A", "red"⟩
    rfl (Or.inl rfl) rfl (Or.inl rfl) rfl

/-- Claim C8: a join with a valid token sends exactly one syncBoard
message with the full current board to the originating channel, then
exactly one chat broadcast "<nickname> has joined." (Room.ts lines
76-84). -/
theorem join_syncboard_and_chat (resolve : String → Option Identity)
    (board : Board) (raw : RawMessage) (a : RoomAction) (id : Identity)
    (hdec : raw.decoded = some a) (ha : a.action = "join")
    (hres : resolve a.authToken = some id) :
    processMessage resolve board raw =
      .ok ([.reply (.syncBoard board),
            .broadcast (.chat (some (id.nickname ++ " has joined.")))],
           board) := by
  simp [processMessage, hdec, dispatch, hres, ha]

/-- Witness for C8 with identity A on the initial board. -/
theorem join_syncboard_and_chat_witness :
    processMessage demoResolve initialBoard
      ⟨some { action := "join", authToken := "tokRed" }⟩ =
      .ok ([.reply (.syncBoard initialBoard),
            .broadcast (.chat (some "A has joined."))], initialBoard) :=
  join_syncboard_and_chat demoResolve initialBoard _ _ ⟨"A", "red"⟩
    rfl rfl rfl

/-- Claim C9: a mark or unmark with a valid token and present but
out-of-range coordinates hits `undefined` in the cell access chain; the
resulting TypeError is caught by the `catch` of Room.ts lines 124-126
and becomes a silent drop — no broadcast, no reply, no board mutation,
no crash (`Except.ok` with empty outputs, never `Except.error` escaping
the handler). -/
theorem out_of_range_caught_silent_drop (resolve : String → Option Identity)
    (board : Board) (raw : RawMessage) (a : RoomAction) (p : Payload)
    (r c : Int) (id : Identity)
    (hdec : raw.decoded = some a)
    (ha : a.action = "mark" ∨ a.action = "unmark")
    (hp : a.payload = some p) (hr : p.row = some r) (hc : p.col = some c)
    (hres : resolve a.authToken = some id)
    (hcell : getCell? board r c = none) :
    processMessage resolve board raw = .ok ([], board) := by
  rcases ha with ha | ha <;>
    simp [processMessage, hdec, dispatch, hres, ha, hp, hr, hc, hcell]

/-- Witness for C9: a mark at row 7 of the 5-row initial board is
silently dropped. -/
theorem out_of_range_caught_silent_drop_witness :
    processMessage demoResolve initialBoard (markRaw "tokRed" 7 0) =
      .ok ([], initialBoard) :=
  out_of_range_caught_silent_drop demoResolve initialBoard _ _ _ 7 0
    ⟨"A", "red"⟩ rfl (Or.inl rfl) rfl rfl rfl rfl rfl

/-- Claim C10: a chat action with a valid token and a present payload is
always broadcast: the guard `if (!message)` on Room.ts line 121 tests
the raw inbound frame variable (a Buffer, hence truthy), never the
decoded chat text, so it never drops — the broadcast carries exactly the
payload's `message` field, including when that field is absent
(`undefined`) or empty. -/
theorem chat_guard_never_drops (resolve : String → Option Identity)
    (board : Board) (raw : RawMessage) (a : RoomAction) (p : Payload)
    (id : Identity)
    (hdec : raw.decoded = some a) (ha : a.action = "chat")
    (hp : a.payload = some p) (hres : resolve a.authToken = some id) :
    processMessage resolve board raw =
      .ok ([.broadcast (.chat p.message)], board) := by
  simp [processMessage, hdec, dispatch, hres, ha, hp, RawMessage.truthy]

/-- Witness for C10: a chat whose payload omits `message` still elicits
a broadcast, carrying the absent field. -/
theorem chat_guard_never_drops_witness :
    processMessage demoResolve initialBoard
      ⟨some { action := "chat", authToken := "tokRed",
              payload := some {} }⟩ =
      .ok ([.broadcast (.chat none)], initialBoard) :=
  chat_guard_never_drops demoResolve initialBoard
    ⟨some { action := "chat", authToken := "tokRed", payload := some {} }⟩
    { action := "chat", authToken := "tokRed", payload := some {} }
    {} ⟨"A", "red"⟩ rfl rfl rfl rfl
